import Mathlib

/-!
Verification development for the pytorm SQL engine
(src/sql/expression.py, src/sql/schema.py, src/sql/select.py).

The Python classes are embedded shallowly:

* `RawVal` models the raw Python values a `Value` expression can hold
  (temporal values are represented by their ISO-8601 serialization,
  which determines them uniquely).
* `SchemaV` models the schema-expression objects (`Table`, `Column`,
  `LinkedTable`, `ColumnInLinkedTable`, `AliasedTable`,
  `ColumnInAliasedTable`, `SchemaExprs`).  Tables and columns are
  identified by name inside one fixed database, mirroring the repr-based
  identity (`is_same`) the source uses.
* `ExprV` models the expression objects (`Value`, `Values`, `OpExpr`,
  `FuncExpr`, `AliasedExpr`, `Query`, and schema expressions).
* Functions that can raise in Python return `Except PyErr _`.
* Where Python recursion is not structural (rendering, `link_to`) the
  Lean function takes a fuel argument; all concrete evaluations use
  ample fuel and universally quantified theorems hold for every fuel.
-/

namespace Pytorm

/-- Python exception kinds raised by the engine (message text kept where the
source formats it; `\x7b`/`\x7d` denote literal braces). -/
inductive PyErr where
  | runtimeError (msg : String)
  | typeError (msg : String)
  | keyError (msg : String)
  | attributeError (msg : String)
  | recursionError (msg : String)
  | fuel
deriving Repr, DecidableEq

/-- Decidable equality of `Except` results, used to settle concrete
evaluations of the model. -/
instance {ε α : Type} [DecidableEq ε] [DecidableEq α] : DecidableEq (Except ε α)
  | .ok a, .ok b =>
      if h : a = b then .isTrue (by rw [h]) else .isFalse (by simp [h])
  | .error a, .error b =>
      if h : a = b then .isTrue (by rw [h]) else .isFalse (by simp [h])
  | .ok _, .error _ => .isFalse (by simp)
  | .error _, .ok _ => .isFalse (by simp)

/-- Raw Python values storable in a `Value` expression (`RawValType` in
src/sql/expression.py).  A datetime/date/time value is represented by its
ISO-8601 string, which `isoformat()` would produce. -/
inductive RawVal where
  | none
  | bool (b : Bool)
  | int (n : Int)
  | str (s : String)
  | temporal (iso : String)
deriving Repr, DecidableEq

/-- Python `str()` of a raw value (only the cases the source renders bare:
`str(self.v)` for int/float, where Python's `bool` is an `int`). -/
def pyStrRaw : RawVal → String
  | .bool true => "True"
  | .bool false => "False"
  | .int n => toString n
  | .str s => s
  | .temporal iso => iso
  | .none => "None"

/-- Python `repr()` of a raw value, used by `Value.__repr__`.  String repr is
modelled without quote-escaping (no claim exercises quotes inside reprs);
temporal repr is modelled injectively from the ISO text. -/
def pyReprRaw : RawVal → String
  | .none => "None"
  | .bool true => "True"
  | .bool false => "False"
  | .int n => toString n
  | .str s => "'" ++ s ++ "'"
  | .temporal iso => "datetime.fromisoformat('" ++ iso ++ "')"

/-- The keyword options a `Query` object carries (`Query.__init__(**options)`).
In the source the three flags are `as_obj`, `quoted` and `use_full`. -/
structure QOpt where
  as_obj : Bool
  quoted : Bool
  use_full : Bool
deriving Repr, DecidableEq

/-- No option (plain `Query(...)`). -/
def noOpt : QOpt := ⟨false, false, false⟩

/-- The `as_obj=True` option (`Query.as_obj`). -/
def asObjOpt : QOpt := ⟨true, false, false⟩

/-- The `quoted=True` option (`Query.quoted`). -/
def quotedOpt : QOpt := ⟨false, true, false⟩

/-- The `use_full=True` option (join rendering of aliased tables). -/
def useFullOpt : QOpt := ⟨false, false, true⟩

/-- Python `repr` of the options dict of a `Query`.  In the source every
`Query` carries at most one flag, so a fixed key order is faithful. -/
def reprQOpt (o : QOpt) : String :=
  if o = ⟨false, false, false⟩ then "\x7b\x7d"
  else
    let entries :=
      (if o.as_obj then ["'as_obj': True"] else []) ++
      (if o.quoted then ["'quoted': True"] else []) ++
      (if o.use_full then ["'use_full': True"] else [])
    "\x7b" ++ String.intercalate ", " entries ++ "\x7d"

/-- Schema-expression objects of src/sql/schema.py.  A `Table` / `Column`
is identified by its name(s) within the one database under consideration,
matching the repr-based identity used throughout the source. -/
inductive SchemaV where
  | Table (tname : String)
  | Column (tname cname : String)
  | LinkedTable (tname : String) (linking : SchemaV)
  | ColumnInLinkedTable (linked : SchemaV) (ctname ccname : String)
  | AliasedTable (t : SchemaV) (alias_name : String)
  | ColumnInAliasedTable (a : SchemaV) (ctname ccname : String)
  | SchemaExprs (vs : List SchemaV)
deriving Repr

mutual
/-- Expression objects of src/sql/expression.py (plus schema expressions,
which are also `Expr` subclasses). -/
inductive ExprV where
  | Value (v : RawVal)
  | Values (vs : List ExprV)
  | OpExpr (op : String) (l r : ExprV)
  | FuncExpr (fname : String) (args : List ExprV)
  | AliasedExpr (e : ExprV) (alias_name : String)
  | Query (args : List QArg) (opt : QOpt)
  | Schema (s : SchemaV)
deriving Repr

/-- One element of `Query.exprs`: a raw string, an int, an expression
object, or a nested iterable (`ExprsArg` in the source).  `None` elements
are dropped at `Query.__init__` and therefore not represented. -/
inductive QArg where
  | s (v : String)
  | i (n : Int)
  | e (x : ExprV)
  | list (xs : List QArg)
deriving Repr
end

/-- Fuel used by the structurally descending interpreters below
(`reprGoF`, `extractGoF`): their recursion depth is bounded by the depth
of the processed object, which in this development never approaches 1000,
so the fuel-exhausted branches are unreachable. -/
def defaultFuel : Nat := 1000

/-- A pending repr computation: the mutually recursive `__repr__` methods
of the expression and schema classes, defunctionalized so that the
interpreter below is structurally recursive on its fuel. -/
inductive RprTask where
  | one (x : ExprV)
  | arg (a : QArg)
  | sch (s : SchemaV)
  | elist (xs : List ExprV)
  | arglistSpace (xs : List QArg)
  | arglistComma (xs : List QArg)
  | schlist (vs : List SchemaV)
deriving Repr

/-- Interpreter of the `__repr__` methods.  Every recursive call strictly
descends into the processed object, so with `defaultFuel` the
fuel-exhausted branch is unreachable. -/
def reprGoF (dbName : String) : Nat → RprTask → String
  | 0, _ => ""
  | n + 1, .one x =>
      match x with
      | .Value v => "Val(" ++ pyReprRaw v ++ ")"
      | .Values vs => "Vals(" ++ reprGoF dbName n (.elist vs) ++ ")"
      | .OpExpr op l r =>
          "Op:" ++ reprGoF dbName n (.one l) ++ " " ++ op ++ " " ++
            reprGoF dbName n (.one r) ++ ")"
      | .FuncExpr fname args =>
          "Func:" ++ fname ++ "(" ++ reprGoF dbName n (.elist args) ++ ")"
      | .AliasedExpr e alias_name =>
          "\x7b" ++ reprGoF dbName n (.one e) ++ "@" ++ alias_name ++ "\x7d"
      | .Query args opt =>
          "Query(" ++ reprGoF dbName n (.arglistSpace args) ++ ", " ++
            reprQOpt opt ++ ")"
      | .Schema s => reprGoF dbName n (.sch s)
  | n + 1, .arg a =>
      match a with
      | .s v => "'" ++ v ++ "'"
      | .i k => toString k
      | .e x => reprGoF dbName n (.one x)
      | .list xs => "[" ++ reprGoF dbName n (.arglistComma xs) ++ "]"
  | n + 1, .sch s =>
      match s with
      | .Table tname => dbName ++ "\x7b" ++ tname ++ "\x7d"
      | .Column tname cname => dbName ++ "\x7b" ++ tname ++ "\x7d" ++ "." ++ cname
      | .LinkedTable tname linking =>
          dbName ++ "\x7b" ++ (dbName ++ "\x7b" ++ tname ++ "\x7d") ++ "<-" ++
            reprGoF dbName n (.sch linking) ++ "\x7d"
      | .ColumnInLinkedTable linked ctname ccname =>
          (dbName ++ "\x7b" ++ ctname ++ "\x7d" ++ "." ++ ccname) ++ "<-" ++
            (match linked with
             | .LinkedTable _ linking => reprGoF dbName n (.sch linking)
             | other => reprGoF dbName n (.sch other))
      | .AliasedTable t alias_name =>
          dbName ++ "\x7b" ++ reprGoF dbName n (.sch t) ++ "@" ++ alias_name ++ "\x7d"
      | .ColumnInAliasedTable a _ ccname =>
          reprGoF dbName n (.sch a) ++ "." ++ ccname
      | .SchemaExprs vs => "(" ++ reprGoF dbName n (.schlist vs) ++ ")"
  | _ + 1, .elist [] => ""
  | n + 1, .elist [x] => reprGoF dbName n (.one x)
  | n + 1, .elist (x :: xs) =>
      reprGoF dbName n (.one x) ++ ", " ++ reprGoF dbName n (.elist xs)
  | _ + 1, .arglistSpace [] => ""
  | n + 1, .arglistSpace [a] => reprGoF dbName n (.arg a)
  | n + 1, .arglistSpace (a :: rest) =>
      reprGoF dbName n (.arg a) ++ " " ++ reprGoF dbName n (.arglistSpace rest)
  | _ + 1, .arglistComma [] => ""
  | n + 1, .arglistComma [a] => reprGoF dbName n (.arg a)
  | n + 1, .arglistComma (a :: rest) =>
      reprGoF dbName n (.arg a) ++ ", " ++ reprGoF dbName n (.arglistComma rest)
  | _ + 1, .schlist [] => ""
  | n + 1, .schlist [v] => reprGoF dbName n (.sch v)
  | n + 1, .schlist (v :: vs) =>
      reprGoF dbName n (.sch v) ++ ", " ++ reprGoF dbName n (.schlist vs)

/-- `Expr.__repr__` of an expression object (the identity of expression
objects, per the docstring of `Expr.__repr__`). -/
def reprExpr (dbName : String) (x : ExprV) : String :=
  reprGoF dbName defaultFuel (.one x)

/-- `__repr__` of a schema-expression object. -/
def reprSchema (dbName : String) (s : SchemaV) : String :=
  reprGoF dbName defaultFuel (.sch s)

/-- `is_same` of src/sql/expression.py: structural identity of two
expressions is equality of their `repr` strings. -/
def is_same (dbName : String) (e1 e2 : ExprV) : Bool :=
  reprExpr dbName e1 == reprExpr dbName e2

/-- The operator whitelist checked by `OpExpr.__sql__`.  The module
`sql/keywords.py` is not among the provided sources; its `operators`
list is modelled from `src/sql_keywords.py`, the repository's keyword
list (the spec: operators are "validated against a fixed operator
whitelist"). -/
def operators : List String :=
  ["AND", "&&", "=", ":=", "BETWEEN ... AND ...", "BINARY", "&", "~", "|",
   "^", "CASE", "DIV", "/", "<=>", ">", ">=", "IS", "IS NOT", "IS NOT NULL",
   "IS NULL", "<<", "<", "<=", "LIKE", "-", "%", "MOD", "NOT", "!",
   "NOT BETWEEN ... AND ...", "!=", "<>", "NOT LIKE", "NOT REGEXP", "||",
   "OR", "+", "REGEXP", ">>", "RLIKE", "SOUNDS LIKE", "*", "XOR"]

/-- The function-name whitelist checked by `FuncExpr.__sql__` (modelled like
`operators`; only membership matters to the claims). -/
def functions : List String :=
  ["ABS", "AVG", "COUNT", "MAX", "MIN", "SUM", "CONCAT", "LENGTH"]

/-- `__sql__` of the schema-expression classes.  `Column.__sql__` is
`Query(self.table, '.' + Query.as_obj(self.name))`: the Python `+` of a
`str` and a `Query` dispatches to `Expr.__radd__`, so the second element is
the operator expression `OpExpr('+', Value('.'), Query.as_obj(name))`, not
a concatenated string.  `ColumnInAliasedTable.__sql__` does the same with
the aliased table in front. -/
def sqlSchema : SchemaV → Except PyErr ExprV
  | .Table tname => .ok (.Query [.s tname] asObjOpt)
  | .Column tname cname =>
      .ok (.Query
        [.e (.Schema (.Table tname)),
         .e (.OpExpr "+" (.Value (.str ".")) (.Query [.s cname] asObjOpt))]
        noOpt)
  | .LinkedTable tname _ => .ok (.Query [.s tname] asObjOpt)
  | .ColumnInLinkedTable _ ctname ccname =>
      .ok (.Query
        [.e (.Schema (.Table ctname)),
         .e (.OpExpr "+" (.Value (.str ".")) (.Query [.s ccname] asObjOpt))]
        noOpt)
  | .AliasedTable _ alias_name => .ok (.Query [.s alias_name] asObjOpt)
  | .ColumnInAliasedTable a _ ccname =>
      .ok (.Query
        [.e (.Schema a),
         .e (.OpExpr "+" (.Value (.str ".")) (.Query [.s ccname] asObjOpt))]
        noOpt)
  | .SchemaExprs vs => .ok (.Query [.list (vs.map (fun v => QArg.e (.Schema v)))] noOpt)

/-- `Expr.__sql__` for every expression class: the `Query` object an
expression turns into.  Every branch of the source builds a `Query`;
`OpExpr`/`FuncExpr` first validate their symbol against the whitelist. -/
def sql : ExprV → Except PyErr ExprV
  | .Value v =>
      match v with
      | .none => .ok (.Query [.s "NULL"] noOpt)
      | .bool b => .ok (.Query [.s (pyStrRaw (.bool b))] noOpt)
      | .int n => .ok (.Query [.s (pyStrRaw (.int n))] noOpt)
      | .temporal iso => .ok (.Query [.s iso] quotedOpt)
      | .str s => .ok (.Query [.s s] quotedOpt)
  | .Values vs => .ok (.Query [.s "(", .list (vs.map QArg.e), .s ")"] noOpt)
  | .OpExpr op l r =>
      if op ∈ operators then
        .ok (.Query [.s "(", .e l, .s op, .e r, .s ")"] noOpt)
      else
        .error (.runtimeError ("Unknown operator `" ++ op ++ "`"))
  | .FuncExpr fname args =>
      if fname ∈ functions then
        .ok (.Query [.s fname, .s "(", .list (args.map QArg.e), .s ")"] noOpt)
      else
        .error (.runtimeError ("Unknown function `" ++ fname ++ "`"))
  | .AliasedExpr _ alias_name => .ok (.Query [.s alias_name] asObjOpt)
  | .Query args opt => .ok (.Query args opt)
  | .Schema s => sqlSchema s

/-- `Expr.__full_sql__`: defaults to `__sql__`; `AliasedExpr` and
`AliasedTable` override it with the `original AS alias` form. -/
def full_sql : ExprV → Except PyErr ExprV
  | .AliasedExpr e alias_name => do
      let q ← sql e
      .ok (.Query [.e q, .s "AS", .e (.Query [.s alias_name] asObjOpt)] noOpt)
  | .Schema (.AliasedTable t alias_name) =>
      .ok (.Query [.e (.Schema t), .s "AS", .e (.Query [.s alias_name] asObjOpt)] noOpt)
  | e => sql e

/-- Escape used by the `as_obj` branch of `Query._to_str`:
`raw.replace('`', '``')` (backtick-doubling). -/
def escBacktick (s : String) : String :=
  ⟨s.data.foldr (fun c acc => if c = '`' then '`' :: '`' :: acc else c :: acc) []⟩

/-- Escape used by the `quoted` branch of `Query._to_str`:
`raw.replace('\\', '\\\\').replace('"', '\\"')`. -/
def escQuoted (s : String) : String :=
  let pass1 : List Char :=
    s.data.foldr (fun c acc => if c = '\\' then '\\' :: '\\' :: acc else c :: acc) []
  ⟨pass1.foldr (fun c acc => if c = '"' then '\\' :: '"' :: acc else c :: acc) []⟩

/-- The space-insertion rule of `Query.query_text`: fragments are joined
with a single space unless the accumulated text ends in `.`/`(` or the new
fragment starts with `.`/`(`/`)`; empty fragments are skipped. -/
def joinSql (q text : String) : String :=
  if text = "" then q
  else if q = "" then q ++ text
  else if q.data.getLast? ∈ [some '.', some '('] ∨
          text.data.head? ∈ [some '.', some '(', some ')'] then q ++ text
  else q ++ " " ++ text

/-- The `as_obj` / `quoted` tail of `Query._to_str` applied to an already
rendered raw string: `as_obj` backtick-quotes (rejecting a simultaneous
`quoted`), `quoted` prepends `'"'` and escapes, but — as in the source —
never appends a closing quote. -/
def applyOptsStr (raw : String) (opt : QOpt) : Except PyErr String :=
  if opt.as_obj then
    if opt.quoted then
      .error (.runtimeError "Cannot specify both `as_obj` and `quoted`.")
    else
      .ok ("`" ++ escBacktick raw ++ "`")
  else if opt.quoted then .ok ("\"" ++ escQuoted raw)
  else .ok raw

/-- A pending rendering computation: one `Query.exprs` element with its
options (`_to_str`), a comma-joined nested iterable, or the `query_text`
accumulator loop — defunctionalized so the interpreter is structurally
recursive on its fuel. -/
inductive RTask where
  | one (a : QArg) (opt : QOpt)
  | items (xs : List QArg)
  | go (args : List QArg) (qopt : QOpt) (acc : String)
deriving Repr

/-- Interpreter of `Query._to_str` / `Query.query_text`.  Two source quirks
are kept faithfully: a nested iterable is rendered with
`', '.join(map(cls._to_str, obj))`, i.e. with default options; and the
`quoted` branch prepends `'"'` but never appends a closing quote
(see `applyOptsStr`). -/
def renderF : Nat → RTask → Except PyErr String
  | 0, _ => .error .fuel
  | _ + 1, .one (.i k) opt =>
      if opt.as_obj ∨ opt.quoted then
        .error (.runtimeError "Cannot specify `as_obj` or `quoted` for integer value.")
      else
        .ok (toString k)
  | _ + 1, .one (.s v) opt => applyOptsStr v opt
  | n + 1, .one (.list xs) _ => renderF n (.items xs)
  | n + 1, .one (.e x) opt => do
      let q ← (if opt.use_full then full_sql x else sql x)
      match q with
      | .Query args qopt => do
          let raw ← renderF n (.go args qopt "")
          applyOptsStr raw opt
      | _ => .error (.runtimeError "Cannot convert value to SQL format.")
  | _ + 1, .items [] => .ok ""
  | n + 1, .items [x] => renderF n (.one x noOpt)
  | n + 1, .items (x :: xs) => do
      let h ← renderF n (.one x noOpt)
      let t ← renderF n (.items xs)
      .ok (h ++ ", " ++ t)
  | _ + 1, .go [] _ acc => .ok acc
  | n + 1, .go (a :: rest) qopt acc => do
      let text ← renderF n (.one a qopt)
      renderF n (.go rest qopt (joinSql acc text))

/-- `Query._to_str(obj, **options)` with the given fuel. -/
def toStrF (fuel : Nat) (a : QArg) (opt : QOpt) : Except PyErr String :=
  renderF fuel (.one a opt)

/-- `Query.query_text` of a `Query` with the given elements and options. -/
def queryTextArgsF (fuel : Nat) (args : List QArg) (qopt : QOpt) :
    Except PyErr String :=
  renderF fuel (.go args qopt "")

/-- Full rendering of an expression object: `e.__sql__().query_text()`. -/
def sqlTextF (fuel : Nat) (e : ExprV) : Except PyErr String := do
  let q ← sql e
  match q with
  | .Query args qopt => queryTextArgsF fuel args qopt
  | _ => .error (.runtimeError "Cannot convert value to SQL format.")

/-- Index-error style Python exceptions (list subscripts). -/
def indexErrMsg : String := "list index out of range"

/-- A navigation-target value handed to `link_to` (the dynamic argument
`val`): a string, a schema expression, a Python iterable of targets, or
any other object (which the dispatch rejects with `TypeError`). -/
inductive PyVal where
  | str (s : String)
  | schema (v : SchemaV)
  | list (xs : List PyVal)
  | other (tag : String)
deriving Repr

/-- One `Column` of the schema model (src/sql/schema.py, class `Column`).
`links` holds the declared direct `Column` links, each identified by the
linked column's (table name, column name); `column_links_table` is the
attribute `resolve_reference` assigns (absent before resolution, hence
`Option`); `reference_resolved` is the `_reference_resolved` flag.  A
`ColumnRef` link is not representable because `ColumnRef.__init__` always
raises (see `ColumnRef_init`). -/
structure ColumnData where
  name : String
  basetype : String
  nullable : Bool
  is_unique : Bool
  is_primary : Bool
  auto_increment : Bool
  links : List (String × String)
  column_links_table : Option (List (String × String))
  reference_resolved : Bool
deriving Repr, DecidableEq

/-- One `Table` of the schema model.  `link_columns_to_table` is the
destination-table-name to origin-columns index `resolve_references`
assigns (absent before resolution). -/
structure TableData where
  name : String
  columns : List ColumnData
  link_columns_to_table : Option (List (String × List String))
  reference_resolved : Bool
deriving Repr, DecidableEq

/-- The `Database` schema object: name, ordered table list, resolution flag.
The name-keyed `table_dict` is modelled by `Database_table` (a Python dict
maps a name to the most recently registered table of that name). -/
structure DatabaseData where
  name : String
  tables : List TableData
  reference_resolved : Bool
deriving Repr, DecidableEq

/-- Association-list lookup (Python dict read, insertion order kept). -/
def assocFind {α : Type} (m : List (String × α)) (k : String) : Option α :=
  (m.find? (fun p => p.1 == k)).map (fun p => p.2)

/-- Append `v` to the list stored under `k`, creating the key at the end on
first sight (Python dict insertion-order semantics of the
`link_columns_to_table` build loop). -/
def assocUpsertAppend {α : Type} (m : List (String × List α)) (k : String) (v : α) :
    List (String × List α) :=
  if m.any (fun p => p.1 == k) then
    m.map (fun p => if p.1 == k then (p.1, p.2 ++ [v]) else p)
  else m ++ [(k, [v])]

/-- `Database.table(name)`: dict lookup by table name, raising `KeyError`
when absent.  Because `append_table` overwrites `table_dict[name]`, the
most recently registered table of that name wins. -/
def Database_table (db : DatabaseData) (name : String) : Except PyErr TableData :=
  match (db.tables.filter (fun t => t.name == name)).getLast? with
  | some t => .ok t
  | none => .error (.keyError ("Table `" ++ name ++ "` not found."))

/-- `Database.table_exists(name)` for a plain name. -/
def Database_table_exists (db : DatabaseData) (name : String) : Bool :=
  db.tables.any (fun t => t.name == name)

/-- Fetch the data of the column object identified by (table, column) name.
In Python this is plain attribute access on an existing object and cannot
fail; the error branches are unreachable for objects obtained through the
API on this database. -/
def lookupColumn (db : DatabaseData) (tname cname : String) :
    Except PyErr ColumnData := do
  let t ← Database_table db tname
  match t.columns.find? (fun c => c.name == cname) with
  | some c => .ok c
  | none => .error (.attributeError "column")

/-- `Column.__init__`: a fresh column with the given primary-key /
auto-increment flags and direct column links; `column_links_table` is not
assigned yet and `_reference_resolved` is `False`. -/
def Column_init (name basetype : String) (is_primary auto_increment : Bool)
    (links : List (String × String)) : ColumnData :=
  ⟨name, basetype, false, false, is_primary, auto_increment, links, none, false⟩

/-- One station of the attribute-lookup loop entered when a missing
attribute such as `_entity` is read on an unresolved `TableRef`: each
constructor names the method the loop passes through next. -/
inductive RefAttrCall where
  | getattrStep
  | linkToStep
  | columnStep
  | entityStep
  | resolvedStep
deriving Repr, DecidableEq

/-- The attribute-lookup loop on an unresolved `TableRef` (no `_entity`
attribute set): `SchemaExpr.__getattr__(name)` runs `self.link_to(name)`;
the string branch of `TableExpr.link_to` runs `self.column(name)`;
`TableExpr.column` calls `self.entity()`; `TableRef.entity` calls
`self.reference_resolved()`, i.e. `hasattr(self, '_entity')`, whose
`getattr` re-enters `__getattr__` for the still-missing attribute.  No
station exits, so Python's interpreter stack limit is hit and
`RecursionError` (a `RuntimeError` subclass) is raised; the fuel is the
recursion limit. -/
def TableRef_attr_loop : Nat → RefAttrCall → Except PyErr Unit
  | 0, _ => .error (.recursionError "maximum recursion depth exceeded")
  | n + 1, .getattrStep => TableRef_attr_loop n .linkToStep
  | n + 1, .linkToStep => TableRef_attr_loop n .columnStep
  | n + 1, .columnStep => TableRef_attr_loop n .entityStep
  | n + 1, .entityStep => TableRef_attr_loop n .resolvedStep
  | n + 1, .resolvedStep => TableRef_attr_loop n .getattrStep

/-- Attempting to create a forward `ColumnRef`.  On an unresolved
`TableRef` the guard `self.reference_resolved()` in
`TableRef.column_by_name` (and, were `__init__` reached, the access
`self.table._entity` in `ColumnRef.__init__`) enters `TableRef_attr_loop`
and raises `RecursionError`; on a resolved `TableRef` the `__init__` guard
`if self.table._entity:` truth-tests the `Table` object, and
`Expr.__bool__` raises `RuntimeError`.  Hence a `ColumnRef` can never be
constructed, and name-lookup failures cannot surface inside
`resolve_references`. -/
def ColumnRef_init (tableRefResolved : Bool) (recursionLimit : Nat) :
    Except PyErr Unit :=
  if tableRefResolved then
    .error (.runtimeError "Cannot convert expression object to boolean.")
  else TableRef_attr_loop recursionLimit .getattrStep

/-- `Table.__init__` as it affects the database: the table is registered
via `db.append_table(self)` first, and only then are the primary-key
constraints checked, so even a failing declaration leaves the table
appended.  No duplicate-name check exists. -/
def Table_init (db : DatabaseData) (name : String) (columns : List ColumnData) :
    DatabaseData × Option PyErr :=
  let t : TableData := ⟨name, columns, none, false⟩
  let db' : DatabaseData := ⟨db.name, db.tables ++ [t], db.reference_resolved⟩
  let keys := columns.filter (fun c => c.is_primary)
  if 2 ≤ keys.length then
    (db', some (.runtimeError "Multiple primary key is not allowed."))
  else if keys.length = 0 then
    (db', some (.runtimeError "Primary key not found."))
  else (db', none)

/-- `Database.prepare_table` under exception semantics: the declared table
is added or the exception aborts the program flow. -/
def Table_declare (db : DatabaseData) (name : String) (columns : List ColumnData) :
    Except PyErr DatabaseData :=
  match Table_init db name columns with
  | (d, none) => .ok d
  | (_, some e) => .error e

/-- The link loop of `Column.resolve_reference`: starting from the empty
dict, add each linked column under its table name, failing when a second
link to the same destination table appears.  The partially built dict is
returned alongside the error, because Python has already assigned it. -/
def columnLinksGo (m : List (String × String)) :
    List (String × String) → List (String × String) × Option PyErr
  | [] => (m, none)
  | (t, c) :: rest =>
      if m.any (fun p => p.1 == t) then
        (m, some (.runtimeError "Multiple link columns to the same table exist."))
      else columnLinksGo (m ++ [(t, c)]) rest

/-- `Column.resolve_reference`: build `column_links_table`; on success the
`_reference_resolved` flag is set, on failure the partially built dict
remains assigned and the flag stays `False`. -/
def Column_resolve (c : ColumnData) : ColumnData × Option PyErr :=
  match columnLinksGo [] c.links with
  | (m, none) =>
      ({ c with column_links_table := some m, reference_resolved := true }, none)
  | (m, some e) => ({ c with column_links_table := some m }, some e)

/-- The per-column loop of `Table.resolve_references`: columns are resolved
in order and mutated in place, so an error leaves the earlier columns
resolved. -/
def tableResolveColumns (done : List ColumnData) :
    List ColumnData → List ColumnData × Option PyErr
  | [] => (done, none)
  | c :: rest =>
      match Column_resolve c with
      | (c', none) => tableResolveColumns (done ++ [c']) rest
      | (c', some e) => (done ++ c' :: rest, some e)

/-- The `link_columns_to_table` build of `Table.resolve_references`: for
each column in order, append it under every destination-table key of its
`column_links_table` (dict keys in first-seen order). -/
def buildLinkColumns (columns : List ColumnData) : List (String × List String) :=
  columns.foldl
    (fun m c =>
      (c.column_links_table.getD []).foldl
        (fun m2 p => assocUpsertAppend m2 p.1 c.name) m)
    []

/-- `Table.resolve_references`: resolve all columns, then build the
destination index and set the flag; on error the partially mutated table is
kept and the flag stays `False`. -/
def Table_resolve (t : TableData) : TableData × Option PyErr :=
  match tableResolveColumns [] t.columns with
  | (cols, none) =>
      ({ t with columns := cols,
                link_columns_to_table := some (buildLinkColumns cols),
                reference_resolved := true }, none)
  | (cols, some e) => ({ t with columns := cols }, some e)

/-- The table loop of `Database.resolve_references`: tables are resolved in
declaration order; an error propagates immediately, leaving every table
before the failing one resolved. -/
def dbResolveTables (done : List TableData) :
    List TableData → List TableData × Option PyErr
  | [] => (done, none)
  | t :: rest =>
      match Table_resolve t with
      | (t', none) => dbResolveTables (done ++ [t']) rest
      | (t', some e) => (done ++ t' :: rest, some e)

/-- `Database.resolve_references`: resolve every table, then set the
database's flag; on failure the partially mutated database is returned
together with the raised error. -/
def Database_resolve (db : DatabaseData) : DatabaseData × Option PyErr :=
  match dbResolveTables [] db.tables with
  | (ts, none) => ({ db with tables := ts, reference_resolved := true }, none)
  | (ts, some e) => ({ db with tables := ts }, some e)

/-- `Database.resolve_references` under exception semantics. -/
def Database_resolveE (db : DatabaseData) : Except PyErr DatabaseData :=
  match Database_resolve db with
  | (d, none) => .ok d
  | (_, some e) => .error e

/-- `entity()` of the table-expression classes: the underlying pure table
(name).  `None` encodes "object has no such method". -/
def entityTableName : SchemaV → Option String
  | .Table t => some t
  | .LinkedTable t _ => some t
  | .AliasedTable t _ => entityTableName t
  | _ => none

/-- `entity()` of the column-expression classes: the underlying pure column
identified by (owning table name, column name). -/
def entityColumnId : SchemaV → Option (String × String)
  | .Column t c => some (t, c)
  | .ColumnInLinkedTable _ t c => some (t, c)
  | .ColumnInAliasedTable _ t c => some (t, c)
  | _ => none

/-- `Column.has_connection_to(table)`.  The guard in the source reads
`if not self.reference_resolved:` — without parentheses this truth-tests
the bound method, which is always truthy, so the not-resolved error can
never be raised; instead an unresolved column fails with `AttributeError`
when `column_links_table` is accessed. -/
def Column_has_connection_to (db : DatabaseData) (ctname ccname dest : String) :
    Except PyErr Bool := do
  let c ← lookupColumn db ctname ccname
  match c.column_links_table with
  | none => .error (.attributeError "column_links_table")
  | some m => .ok (m.any (fun p => p.1 == dest))

/-- `Table.has_connection_to(dest_table)` exactly as written in the source:
it returns `not dest in self.link_columns_to_table or
len(self.link_columns_to_table[dest]) != 1` — i.e. `True` when there is no
link or more than one link, `False` when there is exactly one. -/
def Table_has_connection_to (db : DatabaseData) (origin dest : String) :
    Except PyErr Bool := do
  let t ← Database_table db origin
  if ¬ t.reference_resolved then
    .error (.runtimeError ("References are not resolved in " ++
      db.name ++ "\x7b" ++ origin ++ "\x7d" ++ "."))
  else
    match t.link_columns_to_table with
    | none => .error (.attributeError "link_columns_to_table")
    | some m =>
        match assocFind m dest with
        | none => .ok true
        | some cols => .ok (cols.length ≠ 1)

/-- `Table.connection_to(dest_table)`: raise unless `has_connection_to`,
then return `self.link_columns_to_table[dest][0]`. -/
def Table_connection_to (db : DatabaseData) (origin dest : String) :
    Except PyErr SchemaV := do
  let has ← Table_has_connection_to db origin dest
  if ¬ has then
    .error (.runtimeError ("There are no connection or multiple connection from " ++
      db.name ++ "\x7b" ++ origin ++ "\x7d" ++ " to " ++
      db.name ++ "\x7b" ++ dest ++ "\x7d"))
  else do
    let t ← Database_table db origin
    match t.link_columns_to_table with
    | none => .error (.attributeError "link_columns_to_table")
    | some m =>
        match assocFind m dest with
        | none => .error (.keyError dest)
        | some [] => .error (.keyError indexErrMsg)
        | some (c :: _) => .ok (.Column origin c)

/-- `LinkedTable.__init__`: type-check the table and the linking column,
then require `linking.entity().has_connection_to(table)` (the column-level
check, which is not inverted). -/
def LinkedTable_init (db : DatabaseData) (table linking : SchemaV) :
    Except PyErr SchemaV :=
  match table with
  | .Table tname =>
      match linking with
      | .Column ct cc | .ColumnInLinkedTable _ ct cc => do
          let has ← Column_has_connection_to db ct cc tname
          if ¬ has then
            .error (.runtimeError ("There is no connection form " ++
              reprSchema db.name linking ++ " to " ++
              reprSchema db.name (.Table tname) ++ "."))
          else .ok (.LinkedTable tname linking)
      | _ => .error (.typeError "Unexcepted column type")
  | _ => .error (.typeError "Unexcepted table type")

/-- `AliasedTable.__init__`: the wrapped object must be a `Table` or a
`LinkedTable`. -/
def AliasedTable_init (table : SchemaV) (alias_name : String) :
    Except PyErr SchemaV :=
  match table with
  | .Table _ | .LinkedTable _ _ => .ok (.AliasedTable table alias_name)
  | _ => .error (.typeError "Unexcepted table type")

/-- `TableExpr.column(column_or_name)` followed by `_make_column`: resolve
the argument to a column entity of the expression's entity table (name
lookup raising the not-found error, column argument checked by repr-based
`is_same` of the owning tables), then wrap it according to the class of
`self` (`Table` returns the entity, `LinkedTable` and `AliasedTable` wrap
it). -/
def TableExpr_column (db : DatabaseData) (self : SchemaV)
    (arg : String ⊕ SchemaV) : Except PyErr SchemaV := do
  let ent ← (match entityTableName self with
    | some ent => .ok ent
    | none => .error (.attributeError "entity"))
  let colEnt ← (match arg with
    | .inr colExpr =>
        (match entityColumnId colExpr with
         | some (ct, cc) =>
             if reprSchema db.name (.Table ct) == reprSchema db.name (.Table ent) then
               .ok (ct, cc)
             else
               .error (.runtimeError ("Column " ++
                 reprSchema db.name (.Column ct cc) ++ " does not exist on " ++
                 reprSchema db.name self ++ "."))
         | none => .error (.attributeError "entity"))
    | .inl cname => do
        let t ← Database_table db ent
        match t.columns.find? (fun c => c.name == cname) with
        | some _ => .ok (ent, cname)
        | none => .error (.runtimeError "Column not found in this table."))
  match self with
  | .Table _ => .ok (.Column colEnt.1 colEnt.2)
  | .LinkedTable _ _ => .ok (.ColumnInLinkedTable self colEnt.1 colEnt.2)
  | .AliasedTable _ _ => .ok (.ColumnInAliasedTable self colEnt.1 colEnt.2)
  | _ => .error (.attributeError "_make_column")

/-- A pending navigation computation, defunctionalizing the mutually
recursive `link_to` methods: `lnk` is the class dispatch on `self`, `clnk`
the `ColumnExpr.link_to` isinstance chain, `tlnk` the `TableExpr.link_to`
isinstance chain, `getattrOf` the `SchemaExpr.__getattr__` fallback, `over`
the `SchemaExprs` member map and `many` the iterable-target map. -/
inductive LTask where
  | lnk (self : SchemaV) (val : PyVal)
  | clnk (self : SchemaV) (val : PyVal)
  | tlnk (self : SchemaV) (val : PyVal)
  | getattrOf (self : SchemaV) (aname : String)
  | over (vs : List SchemaV) (val : PyVal)
  | many (self : SchemaV) (xs : List PyVal)
deriving Repr

/-- Interpreter of the `link_to` methods (structurally recursive on its
fuel).  A `lnk`/`clnk`/`tlnk`/`getattrOf` task produces a single schema
expression (`Sum.inl`), a list task the member results (`Sum.inr`).

Dispatch, following the source: `SchemaExprs.link_to` maps over its
members; `ColumnInAliasedTable.link_to` delegates to its underlying
column's `link_to`; column expressions use `ColumnExpr.link_to`
(src/sql/schema.py lines 146-176, where the `LinkedTable` branch reads
`val.Table` — a typo: `LinkedTable` has no attribute `Table`, so
`SchemaExpr.__getattr__` runs `val.link_to('Table')` instead); table
expressions use `TableExpr.link_to` (lines 203-236, whose `Table` branch
goes through the inverted table-level `connection_to`). -/
def linkGoF (db : DatabaseData) : Nat → LTask → Except PyErr (SchemaV ⊕ List SchemaV)
  | 0, _ => .error .fuel
  | n + 1, .lnk self val =>
      match self with
      | .SchemaExprs vs => do
          let r ← linkGoF db n (.over vs val)
          match r with
          | .inr rs => .ok (.inl (.SchemaExprs rs))
          | .inl s => .ok (.inl s)
      | .ColumnInAliasedTable _ ct cc => linkGoF db n (.lnk (.Column ct cc) val)
      | .Column t c => linkGoF db n (.clnk (.Column t c) val)
      | .ColumnInLinkedTable lt t c => linkGoF db n (.clnk (.ColumnInLinkedTable lt t c) val)
      | tbl => linkGoF db n (.tlnk tbl val)
  | n + 1, .getattrOf self aname =>
      match linkGoF db n (.lnk self (.str aname)) with
      | .error (.keyError _) => .error (.attributeError aname)
      | r => r
  | _ + 1, .over [] _ => .ok (.inr [])
  | n + 1, .over (v :: rest) val => do
      let h ← linkGoF db n (.lnk v val)
      let t ← linkGoF db n (.over rest val)
      match h, t with
      | .inl s, .inr rs => .ok (.inr (s :: rs))
      | _, _ => .error (.typeError "Unexcepted sequence result.")
  | _ + 1, .many _ [] => .ok (.inr [])
  | n + 1, .many self (x :: rest) => do
      let h ← linkGoF db n (.lnk self x)
      let t ← linkGoF db n (.many self rest)
      match h, t with
      | .inl s, .inr rs => .ok (.inr (s :: rs))
      | _, _ => .error (.typeError "Unexcepted sequence result.")
  | n + 1, .clnk self val =>
      match val with
      | .str s => do
          let t ← Database_table db s
          linkGoF db n (.lnk self (.schema (.Table t.name)))
      | .schema (.Table tname) => do
          let r ← LinkedTable_init db (.Table tname) self
          .ok (.inl r)
      | .schema (.Column ct cc) => do
          let r ← linkGoF db n (.lnk self (.schema (.Table ct)))
          match r with
          | .inl rt => do
              let c ← TableExpr_column db rt (.inr (.Column ct cc))
              .ok (.inl c)
          | .inr _ => .error (.typeError "Unexcepted sequence result.")
      | .schema (.LinkedTable tname linking) => do
          let r ← linkGoF db n (.lnk self (.schema linking))
          let attr ← linkGoF db n (.getattrOf (.LinkedTable tname linking) "Table")
          match r, attr with
          | .inl rs, .inl a => linkGoF db n (.lnk rs (.schema a))
          | _, _ => .error (.typeError "Unexcepted sequence result.")
      | .schema (.ColumnInLinkedTable lt ct cc) => do
          let r ← linkGoF db n (.lnk self (.schema lt))
          match r with
          | .inl rt => do
              let c ← TableExpr_column db rt (.inr (.Column ct cc))
              .ok (.inl c)
          | .inr _ => .error (.typeError "Unexcepted sequence result.")
      | .schema (.AliasedTable t alias_name) => do
          let r ← linkGoF db n (.lnk self (.schema t))
          match r with
          | .inl rt => do
              let a ← AliasedTable_init rt alias_name
              .ok (.inl a)
          | .inr _ => .error (.typeError "Unexcepted sequence result.")
      | .schema (.ColumnInAliasedTable a ct cc) => do
          let r ← linkGoF db n (.lnk self (.schema a))
          match r with
          | .inl rt => do
              let c ← TableExpr_column db rt (.inr (.Column ct cc))
              .ok (.inl c)
          | .inr _ => .error (.typeError "Unexcepted sequence result.")
      | .schema (.SchemaExprs vs) => do
          let r ← linkGoF db n (.many self (vs.map PyVal.schema))
          match r with
          | .inr rs => .ok (.inl (.SchemaExprs rs))
          | .inl s => .ok (.inl s)
      | .list xs => do
          let r ← linkGoF db n (.many self xs)
          match r with
          | .inr rs => .ok (.inl (.SchemaExprs rs))
          | .inl s => .ok (.inl s)
      | .other tag => .error (.typeError ("Unexcepted type `" ++ tag ++ "`."))
  | n + 1, .tlnk self val =>
      match val with
      | .str s => do
          let c ← TableExpr_column db self (.inl s)
          .ok (.inl c)
      | .schema (.Table tname) =>
          (match entityTableName self with
          | some ent => do
              let c ← Table_connection_to db ent tname
              let r ← LinkedTable_init db (.Table tname) c
              .ok (.inl r)
          | none => .error (.attributeError "entity"))
      | .schema (.Column ct cc) =>
          (match entityTableName self with
          | some ent =>
              if reprSchema db.name (.Table ct) == reprSchema db.name (.Table ent) then do
                let c ← TableExpr_column db self (.inr (.Column ct cc))
                .ok (.inl c)
              else do
                let r ← linkGoF db n (.lnk self (.schema (.Table ct)))
                match r with
                | .inl rt => do
                    let c ← TableExpr_column db rt (.inr (.Column ct cc))
                    .ok (.inl c)
                | .inr _ => .error (.typeError "Unexcepted sequence result.")
          | none => .error (.attributeError "entity"))
      | .schema (.LinkedTable tname linking) => do
          let r ← linkGoF db n (.lnk self (.schema linking))
          match r with
          | .inl rs => linkGoF db n (.lnk rs (.schema (.Table tname)))
          | .inr _ => .error (.typeError "Unexcepted sequence result.")
      | .schema (.ColumnInLinkedTable lt ct cc) => do
          let r ← linkGoF db n (.lnk self (.schema lt))
          match r with
          | .inl rt => do
              let c ← TableExpr_column db rt (.inr (.Column ct cc))
              .ok (.inl c)
          | .inr _ => .error (.typeError "Unexcepted sequence result.")
      | .schema (.AliasedTable t alias_name) => do
          let r ← linkGoF db n (.lnk self (.schema t))
          match r with
          | .inl rt => do
              let a ← AliasedTable_init rt alias_name
              .ok (.inl a)
          | .inr _ => .error (.typeError "Unexcepted sequence result.")
      | .schema (.ColumnInAliasedTable a ct cc) => do
          let r ← linkGoF db n (.lnk self (.schema a))
          match r with
          | .inl rt => do
              let c ← TableExpr_column db rt (.inr (.Column ct cc))
              .ok (.inl c)
          | .inr _ => .error (.typeError "Unexcepted sequence result.")
      | .schema (.SchemaExprs vs) => do
          let r ← linkGoF db n (.many self (vs.map PyVal.schema))
          match r with
          | .inr rs => .ok (.inl (.SchemaExprs rs))
          | .inl s => .ok (.inl s)
      | .list xs => do
          let r ← linkGoF db n (.many self xs)
          match r with
          | .inr rs => .ok (.inl (.SchemaExprs rs))
          | .inl s => .ok (.inl s)
      | .other tag => .error (.typeError ("Unexcepted type `" ++ tag ++ "`."))

/-- `self.link_to(val)` for a schema-expression `self`: run the dispatch
interpreter and extract the schema-expression result. -/
def link_toF (fuel : Nat) (db : DatabaseData) (self : SchemaV) (val : PyVal) :
    Except PyErr SchemaV := do
  let r ← linkGoF db fuel (.lnk self val)
  match r with
  | .inl s => .ok s
  | .inr _ => .error (.typeError "Unexcepted sequence result.")

/-- `column_connections()` of the schema-expression classes: the ordered
(from-column, to-column) hops from the origin table to the expression.
`Table` and `Column` yield nothing; `LinkedTable` appends its own hop to
its linking column's connections; the wrappers delegate.  In
`AliasedTable.column_connections` over a plain `Table` the source executes
`return self.table.column_connections()` inside a generator, which yields
nothing; over a `LinkedTable` the destination column is wrapped by
`self.column(...)` and immediately unwrapped with `.entity()`, so the pair
holds plain columns. -/
def column_connections (db : DatabaseData) :
    SchemaV → Except PyErr (List (SchemaV × SchemaV))
  | .Table _ => .ok []
  | .Column _ _ => .ok []
  | .LinkedTable tname linking => do
      let cs ← column_connections db linking
      match entityColumnId linking with
      | some (ct, cc) => do
          let c ← lookupColumn db ct cc
          match c.column_links_table with
          | none => .error (.attributeError "column_links_table")
          | some m =>
              match assocFind m tname with
              | none => .error (.keyError tname)
              | some destc => .ok (cs ++ [(.Column ct cc, .Column tname destc)])
      | none => .error (.attributeError "entity")
  | .ColumnInLinkedTable lt _ _ => column_connections db lt
  | .AliasedTable (.LinkedTable tname linking) alias_name => do
      let cs ← column_connections db linking
      match entityColumnId linking with
      | some (ct, cc) => do
          let c ← lookupColumn db ct cc
          match c.column_links_table with
          | none => .error (.attributeError "column_links_table")
          | some m =>
              match assocFind m tname with
              | none => .error (.keyError tname)
              | some destc => do
                  let cw ← TableExpr_column db
                    (.AliasedTable (.LinkedTable tname linking) alias_name)
                    (.inr (.Column tname destc))
                  match entityColumnId cw with
                  | some (t2, c2) => .ok (cs ++ [(.Column ct cc, .Column t2 c2)])
                  | none => .error (.attributeError "entity")
      | none => .error (.attributeError "entity")
  | .AliasedTable _ _ => .ok []
  | .ColumnInAliasedTable a _ _ => column_connections db a
  | .SchemaExprs _ => .error (.attributeError "column_connections")

/-- `alias(name)` of the table-expression classes: `Table.alias` and
`LinkedTable.alias` wrap `self`; `AliasedTable.alias` wraps `self.table`,
replacing (not nesting) the previous alias. -/
def TableExpr_alias (self : SchemaV) (alias_name : String) :
    Except PyErr SchemaV :=
  match self with
  | .Table _ | .LinkedTable _ _ => AliasedTable_init self alias_name
  | .AliasedTable t _ => AliasedTable_init t alias_name
  | _ => .error (.attributeError "alias")

/-- An origin object for the navigation surface syntaxes: a schema
expression or the `Database` itself (both inherit the `SchemaExpr`
operator methods). -/
inductive NavOrigin where
  | database
  | sch (s : SchemaV)
deriving Repr

/-- A pending `Database.link_to` computation (one target or the iterable
map over targets). -/
inductive DTask where
  | one (val : PyVal)
  | list (xs : List PyVal)
deriving Repr

/-- Interpreter of `Database.link_to(val)`: a string or table expression
resolves through `Database.table` (returning the pure `Table` entity), an
iterable maps `link_to` over its elements, a non-table schema expression
other than a `SchemaExprs` and any other object is a `TypeError`. -/
def dbLinkGoF (db : DatabaseData) : Nat → DTask → Except PyErr (SchemaV ⊕ List SchemaV)
  | 0, _ => .error .fuel
  | n + 1, .one val =>
      match val with
      | .str s => do
          let t ← Database_table db s
          .ok (.inl (.Table t.name))
      | .schema v =>
          (match entityTableName v with
          | some ent => .ok (.inl (.Table ent))
          | none =>
              match v with
              | .SchemaExprs vs => do
                  let r ← dbLinkGoF db n (.list (vs.map PyVal.schema))
                  match r with
                  | .inr rs => .ok (.inl (.SchemaExprs rs))
                  | .inl s => .ok (.inl s)
              | _ => .error (.typeError "Unexcepted type `column`."))
      | .list xs => do
          let r ← dbLinkGoF db n (.list xs)
          match r with
          | .inr rs => .ok (.inl (.SchemaExprs rs))
          | .inl s => .ok (.inl s)
      | .other tag => .error (.typeError ("Unexcepted type `" ++ tag ++ "`."))
  | _ + 1, .list [] => .ok (.inr [])
  | n + 1, .list (x :: rest) => do
      let h ← dbLinkGoF db n (.one x)
      let t ← dbLinkGoF db n (.list rest)
      match h, t with
      | .inl s, .inr rs => .ok (.inr (s :: rs))
      | _, _ => .error (.typeError "Unexcepted sequence result.")

/-- `Database.link_to(val)`. -/
def Database_link_toF (fuel : Nat) (db : DatabaseData) (val : PyVal) :
    Except PyErr SchemaV := do
  let r ← dbLinkGoF db fuel (.one val)
  match r with
  | .inl s => .ok s
  | .inr _ => .error (.typeError "Unexcepted sequence result.")

/-- `link_to` on any `SchemaExpr` origin (schema expression or database). -/
def navLinkToF (fuel : Nat) (db : DatabaseData) (o : NavOrigin) (val : PyVal) :
    Except PyErr SchemaV :=
  match o with
  | .database => Database_link_toF fuel db val
  | .sch s => link_toF fuel db s val

/-- `origin[val]` — `SchemaExpr.__getitem__` is an alias of `link_to`. -/
def SchemaExpr_getitem (fuel : Nat) (db : DatabaseData) (o : NavOrigin)
    (val : PyVal) : Except PyErr SchemaV :=
  navLinkToF fuel db o val

/-- `origin >> val` — Python calls `origin.__rshift__(val)`, i.e.
`origin.link_to(val)` (no schema class is a subclass of another, so the
reflected method is never tried first). -/
def SchemaExpr_rshift (fuel : Nat) (db : DatabaseData) (o : NavOrigin)
    (val : PyVal) : Except PyErr SchemaV :=
  navLinkToF fuel db o val

/-- `val << origin` — when `val` is a schema expression Python calls
`val.__lshift__(origin)`, which (origin having `link_to`) returns
`origin.link_to(val)`; otherwise `val` has no `__lshift__` and Python falls
back to `origin.__rlshift__(val)`, which is `origin.link_to(val)` too. -/
def SchemaExpr_lshift_mirror (fuel : Nat) (db : DatabaseData) (val : PyVal)
    (o : NavOrigin) : Except PyErr SchemaV :=
  match val with
  | .schema v => navLinkToF fuel db o (.schema v)
  | v => navLinkToF fuel db o v

/-- Rendering of a navigation outcome: the SQL text of the resulting
schema expression (errors pass through). -/
def renderNavF (fuel : Nat) (r : Except PyErr SchemaV) : Except PyErr String := do
  let s ← r
  sqlTextF fuel (.Schema s)

/-- `Expr.__bool__`: always raises. -/
def Expr_bool (_ : ExprV) : Except PyErr Bool :=
  .error (.runtimeError "Cannot convert expression object to boolean.")

/-- `Expr.__int__`: always raises. -/
def Expr_int (_ : ExprV) : Except PyErr Int :=
  .error (.runtimeError "Cannot convert expression object to integer.")

/-- `Expr.__float__`: always raises. -/
def Expr_float (_ : ExprV) : Except PyErr Float :=
  .error (.runtimeError "Cannot convert expression object to float.")

/-- `Expr.__str__`: always raises. -/
def Expr_str (_ : ExprV) : Except PyErr String :=
  .error (.runtimeError "Cannot convert expression object to string.")

/-- `Expr.__hash__`: always raises. -/
def Expr_hash (_ : ExprV) : Except PyErr Int :=
  .error (.runtimeError "Cannot calculate a hash value of expression object.")

/-- `Expr.__contains__(expr)`: builds `OpExpr('IN', expr, self)` (both
arguments pass through `to_expr` unchanged, being expressions already). -/
def Expr_contains (self x : ExprV) : ExprV := .OpExpr "IN" x self

/-- The Python membership test `x in e`: the interpreter calls
`e.__contains__(x)` and then coerces the returned object to a truth value
with `bool(...)`, i.e. `Expr.__bool__`. -/
def Expr_in (x e : ExprV) : Except PyErr Bool :=
  Expr_bool (Expr_contains e x)

/-- The `Select` builder state after `__init__` (src/sql/select.py). -/
structure SelectV where
  column_exprs : List ExprV
  where_expr : Option ExprV
  group_exprs : Option (List ExprV)
  having_expr : Option ExprV
  order_exprs : Option (List (ExprV × Bool))
  count : Option Int
  offset : Option Int
deriving Repr

/-- `Select._is_asc_or_desc`: `+`/`A`/`ASC` (case-insensitive) ascending,
`-`/`D`/`DESC` descending, anything else an error. -/
def Select_is_asc_or_desc (s : String) : Except PyErr Bool :=
  if s = "+" ∨ s.toUpper = "A" ∨ s.toUpper = "ASC" then .ok true
  else if s = "-" ∨ s.toUpper = "D" ∨ s.toUpper = "DESC" then .ok false
  else .error (.runtimeError "Invalid string of asc or desc")

/-- `Select.__init__`: store the clauses, parsing each order direction. -/
def Select_init (columns : List ExprV) (whereE : Option ExprV)
    (group : Option (List ExprV)) (having : Option ExprV)
    (order : Option (List (ExprV × String))) (count offset : Option Int) :
    Except PyErr SelectV := do
  let orderParsed ← (match order with
    | none => .ok Option.none
    | some os => do
        let l ← os.mapM (fun p => do
          let b ← Select_is_asc_or_desc p.2
          pure (p.1, b))
        .ok (some l))
  .ok ⟨columns, whereE, group, having, orderParsed, count, offset⟩

/-- `Select.all_exprs`: columns, where, group, having, then the order
expressions. -/
def Select_all_exprs (s : SelectV) : List ExprV :=
  s.column_exprs ++
  (match s.where_expr with | some w => [w] | none => []) ++
  s.group_exprs.getD [] ++
  (match s.having_expr with | some h => [h] | none => []) ++
  (match s.order_exprs with | some os => os.map (fun p => p.1) | none => [])

/-- A pending `extract_column_exprs` computation: one expression, a list
of expressions, or the members of a `SchemaExprs`. -/
inductive ETask where
  | one (e : ExprV)
  | list (es : List ExprV)
  | schemas (vs : List SchemaV)
deriving Repr

/-- Interpreter of `Select.extract_column_exprs`: iterables recurse
(`Values.__iter__` returns a list instead of an iterator, so iterating a
`Values` raises `TypeError`), column expressions are yielded, operator and
function nodes recurse into their arguments, anything else is a
`TypeError`.  Every recursive call strictly descends into the processed
expression, so with `defaultFuel` the fuel-exhausted branch is
unreachable. -/
def extractGoF : Nat → ETask → Except PyErr (List SchemaV)
  | 0, _ => .error .fuel
  | n + 1, .one x =>
      match x with
      | .Values _ => .error (.typeError "iter() returned non-iterator of type list")
      | .Schema (.SchemaExprs vs) => extractGoF n (.schemas vs)
      | .Schema (.Column t c) => .ok [.Column t c]
      | .Schema (.ColumnInLinkedTable lt t c) => .ok [.ColumnInLinkedTable lt t c]
      | .Schema (.ColumnInAliasedTable a t c) => .ok [.ColumnInAliasedTable a t c]
      | .OpExpr _ l r => do
          let a ← extractGoF n (.one l)
          let b ← extractGoF n (.one r)
          .ok (a ++ b)
      | .FuncExpr _ args => extractGoF n (.list args)
      | _ => .error (.typeError "Unexcepted type `expr`.")
  | _ + 1, .list [] => .ok []
  | n + 1, .list (e :: rest) => do
      let a ← extractGoF n (.one e)
      let b ← extractGoF n (.list rest)
      .ok (a ++ b)
  | _ + 1, .schemas [] => .ok []
  | n + 1, .schemas (v :: rest) => do
      let a ← extractGoF n (.one (.Schema v))
      let b ← extractGoF n (.schemas rest)
      .ok (a ++ b)

/-- `extract_column_exprs` of one expression. -/
def extract_one (e : ExprV) : Except PyErr (List SchemaV) :=
  extractGoF defaultFuel (.one e)

/-- `extract_column_exprs` of a list of expressions. -/
def extract_list (es : List ExprV) : Except PyErr (List SchemaV) :=
  extractGoF defaultFuel (.list es)

/-- The inner dedup loop of `Select.tables_query` exactly as written:
`if all(is_same(new[0], old[0]) and is_same(new[1], old[1]) for old in
c_cons): c_cons.append(new)` — a hop is appended only when it equals every
hop already collected (vacuously so for the first), so identical hops are
appended repeatedly and a hop differing from a collected one is dropped. -/
def tccAddCons (dbName : String) (ccons newcons : List (SchemaV × SchemaV)) :
    List (SchemaV × SchemaV) :=
  newcons.foldl
    (fun acc nc =>
      if acc.all (fun c =>
          is_same dbName (.Schema nc.1) (.Schema c.1) &&
          is_same dbName (.Schema nc.2) (.Schema c.2)) then
        acc ++ [nc]
      else acc)
    ccons

/-- The grouping loop of `Select.tables_query`: group each column
expression's connections under the origin table name
(`column_cons[0][0].table.name`), feeding them through the dedup loop. -/
def buildTCCgo (db : DatabaseData)
    (acc : List (String × List (SchemaV × SchemaV))) :
    List SchemaV → Except PyErr (List (String × List (SchemaV × SchemaV)))
  | [] => .ok acc
  | ce :: rest => do
      let cons ← column_connections db ce
      match cons with
      | [] => buildTCCgo db acc rest
      | (first, _) :: _ => do
          let tname ← (match first with
            | .Column t _ => .ok t
            | _ => .error (.attributeError "table"))
          let acc1 := if acc.any (fun p => p.1 == tname) then acc
                      else acc ++ [(tname, [])]
          let acc2 := acc1.map (fun p =>
            if p.1 == tname then (p.1, tccAddCons db.name p.2 cons) else p)
          buildTCCgo db acc2 rest

/-- `tables_column_connections` of `Select.tables_query`: the grouped,
"deduplicated" connection lists per origin table. -/
def buildTCC (db : DatabaseData) (cols : List SchemaV) :
    Except PyErr (List (String × List (SchemaV × SchemaV))) :=
  buildTCCgo db [] cols

/-- One `INNER JOIN` hop of the join loop.  `c_query += SQLQuery(...)`
falls back to `Expr.__add__`, so the accumulated query becomes an
`OpExpr('+', ...)` node, kept faithfully.  The join target of a
`ColumnInAliasedTable` destination renders its aliased table with
`use_full=True`; a plain `Column` destination renders its table. -/
def joinHop (_db : DatabaseData) (cq : ExprV) (hop : SchemaV × SchemaV) :
    Except PyErr ExprV := do
  let ctq ← (match hop.2 with
    | .ColumnInAliasedTable a _ _ => .ok (ExprV.Query [.e (.Schema a)] useFullOpt)
    | .Column t _ => .ok (ExprV.Query [.e (.Schema (.Table t))] noOpt)
    | _ => .error (.attributeError "table"))
  .ok (.OpExpr "+" cq (.Query
    [.s "INNER JOIN", .e ctq, .s "ON",
     .e (.Schema hop.1), .s "=", .e (.Schema hop.2)] noOpt))

/-- `Select.tables_query`: extract the column expressions from all clause
expressions, group and "dedup" their connections, then emit per group the
origin table followed by its `INNER JOIN` chain; the groups are collected
into one comma-joining `Query`. -/
def Select_tables_query (db : DatabaseData) (s : SelectV) :
    Except PyErr ExprV := do
  let cols ← extract_list (Select_all_exprs s)
  let tcc ← buildTCC db cols
  let joins ← tcc.mapM (fun p => do
    let t ← Database_table db p.1
    let init : ExprV := .Query [.e (.Schema (.Table t.name))] noOpt
    p.2.foldlM (joinHop db) init)
  .ok (.Query [.list (joins.map QArg.e)] noOpt)

/-- `Select.sql_query`: the `SELECT ... FROM ...` query with each optional
clause appended via `q += SQLQuery(...)`, which — `Query` defining no
`__add__` of its own — dispatches to `Expr.__add__` and wraps the query in
`OpExpr('+', ...)` nodes. -/
def Select_sql_query (db : DatabaseData) (s : SelectV) :
    Except PyErr ExprV := do
  let tq ← Select_tables_query db s
  let q0 : ExprV := .Query
    [.s "SELECT", .list (s.column_exprs.map QArg.e), .s "FROM", .e tq] noOpt
  let q1 := (match s.where_expr with
    | some w => ExprV.OpExpr "+" q0 (.Query [.s "WHERE", .e w] noOpt)
    | none => q0)
  let q2 := (match s.group_exprs with
    | some gs => ExprV.OpExpr "+" q1
        (.Query [.s "GROUP BY", .list (gs.map QArg.e)] noOpt)
    | none => q1)
  let q3 := (match s.having_expr with
    | some h => ExprV.OpExpr "+" q2 (.Query [.s "HAVING", .e h] noOpt)
    | none => q2)
  let q4 := (match s.order_exprs with
    | some os => ExprV.OpExpr "+" q3
        (.Query [.s "ORDER BY",
          .list (os.map (fun p =>
            QArg.e (.Query [.e p.1, .s (if p.2 then "ASC" else "DESC")] noOpt)))]
          noOpt)
    | none => q3)
  let q5 := (match s.count with
    | some n => ExprV.OpExpr "+" q4 (.Query [.s "LIMIT", .i n] noOpt)
    | none => q4)
  let q6 := (match s.offset with
    | some n => ExprV.OpExpr "+" q5 (.Query [.s "OFFSET", .i n] noOpt)
    | none => q5)
  .ok q6

/-- The empty database `Database('DB')` of the test scenario. -/
def dbEmpty : DatabaseData := ⟨"DB", [], false⟩

/-- The scenario schema of the spec (and of src/sq_test.py):
`kinds(id PK, name)`, `subkinds(id PK, kind_id → kinds.id, name)`,
`items(id PK auto, subkind_id → subkinds.id, name)`, plus
`rel_item_pairs(id PK auto, item1_id → items.id, item2_id → items.id,
rate)`, declared and then resolved. -/
def dbScenarioDeclared : Except PyErr DatabaseData := do
  let d ← Table_declare dbEmpty "kinds"
    [Column_init "id" "INT" true false [],
     Column_init "name" "VARCHAR(32)" false false []]
  let d ← Table_declare d "subkinds"
    [Column_init "id" "INT" true false [],
     Column_init "kind_id" "INT" false false [("kinds", "id")],
     Column_init "name" "varchar(64)" false false []]
  let d ← Table_declare d "items"
    [Column_init "id" "INT" true true [],
     Column_init "subkind_id" "INT" false false [("subkinds", "id")],
     Column_init "name" "varchar(128)" false false []]
  let d ← Table_declare d "rel_item_pairs"
    [Column_init "id" "INT" true true [],
     Column_init "item1_id" "INT" false false [("items", "id")],
     Column_init "item2_id" "INT" false false [("items", "id")],
     Column_init "rate" "REAL" false false []]
  Database_resolveE d

/-- The resolved scenario database. -/
def dbScenario : DatabaseData := dbScenarioDeclared.toOption.getD dbEmpty

/-- The column expression `items→subkinds→kinds.name` of the scenario,
built (as `q2`/`q3` in src/sq_test.py can) through column-level
navigation, which does not pass through the inverted table-level
`connection_to`:
`items.subkind_id >> subkinds >> 'kind_id' >> kinds >> 'name'`. -/
def colKindsName : SchemaV :=
  .ColumnInLinkedTable
    (.LinkedTable "kinds"
      (.ColumnInLinkedTable
        (.LinkedTable "subkinds" (.Column "items" "subkind_id"))
        "subkinds" "kind_id"))
    "kinds" "name"

/-- The column expression `items→subkinds.name` of the scenario, built the
same column-level way; it shares its single hop with `colKindsName`. -/
def colSubName : SchemaV :=
  .ColumnInLinkedTable (.LinkedTable "subkinds" (.Column "items" "subkind_id"))
    "subkinds" "name"

/-- Building the four selected columns of the spec's scenario exactly as
written there: `[items.id, items→subkinds→kinds.name, items→subkinds.name,
items.name]`, with the table→table hops navigated from the tables. -/
def C1_build : Except PyErr (List ExprV) := do
  let c1 ← link_toF 100 dbScenario (.Table "items") (.str "id")
  let nav1 ← link_toF 100 dbScenario (.Table "items") (.schema (.Table "subkinds"))
  let nav2 ← link_toF 100 dbScenario nav1 (.schema (.Table "kinds"))
  let c2 ← link_toF 100 dbScenario nav2 (.str "name")
  let nav3 ← link_toF 100 dbScenario (.Table "items") (.schema (.Table "subkinds"))
  let c3 ← link_toF 100 dbScenario nav3 (.str "name")
  let c4 ← link_toF 100 dbScenario (.Table "items") (.str "name")
  .ok [.Schema c1, .Schema c2, .Schema c3, .Schema c4]

/-- The SQL text the claim says the scenario renders. -/
def C1_claimedSQL : String :=
  "SELECT items.id, kinds.name, subkinds.name, items.name FROM items INNER JOIN subkinds ON items.subkind_id = subkinds.id INNER JOIN kinds ON subkinds.kind_id = kinds.id"

/-- The whole claimed pipeline: build the columns, build the `Select`,
generate `sql_query` and render its text. -/
def C1_pipeline : Except PyErr String := do
  let cols ← C1_build
  let sel ← Select_init cols none none none none none none
  let q ← Select_sql_query dbScenario sel
  sqlTextF 1000 q

/-- A database whose resolution fails: table `kinds` resolves fine, then
table `bad` fails because its column `ref1` declares two links into the
same destination table (`kinds.id` and `kinds.name`). -/
def dbC6 : DatabaseData :=
  ((do
    let d ← Table_declare dbEmpty "kinds"
      [Column_init "id" "INT" true false [],
       Column_init "name" "VARCHAR(32)" false false []]
    Table_declare d "bad"
      [Column_init "id" "INT" true false [],
       Column_init "ref1" "INT" false false [("kinds", "id"), ("kinds", "name")]]
    : Except PyErr DatabaseData)).toOption.getD dbEmpty

/-- A database that already declares a table named `t1`. -/
def dbC7pre : DatabaseData :=
  (Table_declare dbEmpty "t1" [Column_init "id" "INT" true false []]).toOption.getD dbEmpty

/-- Declaring a second table with the already-used name `t1`. -/
def dbC7 : DatabaseData × Option PyErr :=
  Table_init dbC7pre "t1" [Column_init "id2" "INT" true false []]

/-- Resolving a table whose per-column resolution succeeds sets its
`_reference_resolved` flag. -/
theorem Table_resolve_ok_flag (t : TableData) (h : (Table_resolve t).2 = none) :
    ((Table_resolve t).1).reference_resolved = true := by
  rcases hc : tableResolveColumns [] t.columns with ⟨cols, opt⟩
  cases opt <;> simp [Table_resolve, hc] at h ⊢

/-- Shape of a failing run of the table loop of
`Database.resolve_references`: the table list splits at the first failing
table, the earlier tables resolve and are kept in their resolved state,
and the tables after the failing one are untouched. -/
theorem dbResolveTables_err (e : PyErr) :
    ∀ (rest done : List TableData), (dbResolveTables done rest).2 = some e →
    ∃ pre t post, rest = pre ++ t :: post ∧
      (∀ t' ∈ pre, (Table_resolve t').2 = none) ∧
      (Table_resolve t).2 = some e ∧
      (dbResolveTables done rest).1 =
        done ++ pre.map (fun t' => (Table_resolve t').1) ++ (Table_resolve t).1 :: post := by
  intro rest
  induction rest with
  | nil => intro done h; simp [dbResolveTables] at h
  | cons t rest ih =>
      intro done h
      rcases ht : Table_resolve t with ⟨t', opt⟩
      cases opt with
      | some e' =>
          have h2 : (dbResolveTables done (t :: rest)).2 = some e' := by
            simp [dbResolveTables, ht]
          rw [h2] at h
          obtain rfl : e' = e := by injection h
          exact ⟨[], t, rest, rfl, by simp, by rw [ht], by simp [dbResolveTables, ht]⟩
      | none =>
          have h2 : dbResolveTables done (t :: rest) = dbResolveTables (done ++ [t']) rest := by
            simp [dbResolveTables, ht]
          rw [h2] at h
          obtain ⟨pre, tt, post, hrest, hpre, herr, hres⟩ := ih (done ++ [t']) h
          refine ⟨t :: pre, tt, post, by simp [hrest], ?_, herr, ?_⟩
          · intro x hx
            rcases List.mem_cons.mp hx with h1 | h1
            · subst h1; rw [ht]
            · exact hpre x h1
          · rw [h2, hres]
            simp [ht]

/-- C1 (counterexample): for the scenario schema, building the `Select`
over `[items.id, items→subkinds→kinds.name, items→subkinds.name,
items.name]` and rendering its query text does not yield the claimed SQL
string — the pipeline does not even produce a string. -/
theorem C1_scenario_counterexample : C1_pipeline ≠ .ok C1_claimedSQL := by
  intro h
  rw [show C1_pipeline = Except.error (.runtimeError
    "There are no connection or multiple connection from DB\x7bitems\x7d to DB\x7bsubkinds\x7d")
    from rfl] at h
  exact Except.noConfusion h

/-- C1 (amended): building the scenario `Select` fails: the table→table
hop `items→subkinds` raises
`RuntimeError('There are no connection or multiple connection …')`,
because `Table.has_connection_to` returns the negation of its documented
meaning, so no SQL text is ever rendered. -/
theorem C1_scenario_amended :
    C1_pipeline = .error (.runtimeError
      "There are no connection or multiple connection from DB\x7bitems\x7d to DB\x7bsubkinds\x7d") ∧
    link_toF 100 dbScenario (.Table "items") (.schema (.Table "subkinds")) =
      .error (.runtimeError
        "There are no connection or multiple connection from DB\x7bitems\x7d to DB\x7bsubkinds\x7d") :=
  ⟨rfl, rfl⟩

/-- C2: join synthesis groups by origin table correctly, but the dedup
condition is inverted.  For the two scenario columns
`items→subkinds→kinds.name` (hops `items.subkind_id→subkinds.id`,
`subkinds.kind_id→kinds.id`) and `items→subkinds.name` (the first hop
again), the collected connection list for origin `items` repeats the
shared hop twice and drops the distinct `kinds` hop entirely — instead of
keeping each distinct hop exactly once in first-seen order. -/
theorem C2_join_dedup_code_bug :
    column_connections dbScenario colKindsName =
      .ok [(.Column "items" "subkind_id", .Column "subkinds" "id"),
           (.Column "subkinds" "kind_id", .Column "kinds" "id")] ∧
    column_connections dbScenario colSubName =
      .ok [(.Column "items" "subkind_id", .Column "subkinds" "id")] ∧
    buildTCC dbScenario [colKindsName, colSubName] =
      .ok [("items",
        [(.Column "items" "subkind_id", .Column "subkinds" "id"),
         (.Column "items" "subkind_id", .Column "subkinds" "id")])] :=
  ⟨rfl, rfl, rfl⟩

/-- C3: `Table.has_connection_to` / `Table.connection_to` are inverted
relative to their docstrings.  With exactly one link (`items` →
`subkinds`) navigation raises the no-connection/multiple-connection
error; with two candidate links (`rel_item_pairs` → `items`) the first
link column is returned silently instead of an ambiguity error; with no
link (`kinds` → `subkinds`) the access fails with a `KeyError` instead of
the documented error. -/
theorem C3_connection_to_code_bug :
    Table_connection_to dbScenario "items" "subkinds" =
      .error (.runtimeError
        "There are no connection or multiple connection from DB\x7bitems\x7d to DB\x7bsubkinds\x7d") ∧
    link_toF 100 dbScenario (.Table "items") (.schema (.Table "subkinds")) =
      .error (.runtimeError
        "There are no connection or multiple connection from DB\x7bitems\x7d to DB\x7bsubkinds\x7d") ∧
    Table_connection_to dbScenario "rel_item_pairs" "items" =
      .ok (.Column "rel_item_pairs" "item1_id") ∧
    link_toF 100 dbScenario (.Table "rel_item_pairs") (.schema (.Table "items")) =
      .ok (.LinkedTable "items" (.Column "rel_item_pairs" "item1_id")) ∧
    Table_connection_to dbScenario "kinds" "subkinds" = .error (.keyError "subkinds") :=
  ⟨rfl, rfl, rfl, rfl, rfl⟩

/-- C4: the three navigation surface syntaxes — `origin[val]`,
`origin >> val` and `val << origin` — all dispatch to `origin.link_to(val)`
and therefore produce equal results and render identical SQL text, for
every origin (schema expression or database), target and fuel. -/
theorem C4_navigation_syntaxes_agree (fuel m : Nat) (db : DatabaseData)
    (o : NavOrigin) (val : PyVal) :
    SchemaExpr_getitem fuel db o val = navLinkToF fuel db o val ∧
    SchemaExpr_rshift fuel db o val = navLinkToF fuel db o val ∧
    SchemaExpr_lshift_mirror fuel db val o = navLinkToF fuel db o val ∧
    renderNavF m (SchemaExpr_getitem fuel db o val) =
      renderNavF m (SchemaExpr_rshift fuel db o val) ∧
    renderNavF m (SchemaExpr_lshift_mirror fuel db val o) =
      renderNavF m (SchemaExpr_getitem fuel db o val) := by
  refine ⟨rfl, rfl, ?_, rfl, ?_⟩ <;> cases val <;> rfl

/-- C5 (counterexample): `is_same` is not equivalence of rendered SQL
text: `Value(1)` and `Query('1')` render the same SQL (`1`) yet are not
`is_same`, their debug reprs (`Val(1)` vs `Query('1', {})`) differing. -/
theorem C5_is_same_counterexample :
    ¬ ((is_same "DB" (.Value (.int 1)) (.Query [.s "1"] noOpt) = true) ↔
       sqlTextF 9 (.Value (.int 1)) = sqlTextF 9 (.Query [.s "1"] noOpt)) := by
  decide

/-- C5 (amended): the structural identity `is_same` holds iff the two
expressions' `repr` (debug representation) strings are equal; this is not
the same relation as equality of rendered SQL text, as `Value(1)` vs
`Query('1')` shows. -/
theorem C5_is_same_amended :
    (∀ (dbn : String) (e1 e2 : ExprV),
      is_same dbn e1 e2 = true ↔ reprExpr dbn e1 = reprExpr dbn e2) ∧
    sqlTextF 9 (.Value (.int 1)) = sqlTextF 9 (.Query [.s "1"] noOpt) ∧
    is_same "DB" (.Value (.int 1)) (.Query [.s "1"] noOpt) = false := by
  refine ⟨fun dbn e1 e2 => ?_, rfl, rfl⟩
  simp [is_same]

/-- The attribute-lookup loop on an unresolved `TableRef` never exits:
for every recursion limit and entry station it ends in `RecursionError`. -/
theorem TableRef_attr_loop_diverges (n : Nat) (c : RefAttrCall) :
    TableRef_attr_loop n c =
      .error (.recursionError "maximum recursion depth exceeded") := by
  induction n generalizing c with
  | zero => rfl
  | succ n ih => cases c <;> exact ih _

set_option maxRecDepth 8192 in
/-- C6 (counterexample): resolution is not atomic.  In `dbC6` the second
table's column declares two links into the same table, so
`resolve_references` raises — yet the first table (`kinds`) is left in the
resolved state.  Moreover the claimed failure cause (a link's named
table/column not found) cannot even occur at resolve time, because a
forward `ColumnRef` can never be created: on an unresolved `TableRef` the
`_entity` lookup loops through `__getattr__` until `RecursionError`, and
on a resolved one `Expr.__bool__` raises `RuntimeError` (here at Python's
default recursion limit of 1000). -/
theorem C6_resolve_atomicity_counterexample :
    (Database_resolve dbC6).2 =
      some (.runtimeError "Multiple link columns to the same table exist.") ∧
    ((Database_resolve dbC6).1.tables.map (fun t => (t.name, t.reference_resolved))) =
      [("kinds", true), ("bad", false)] ∧
    (Database_resolve dbC6).1.reference_resolved = false ∧
    ColumnRef_init true 1000 =
      .error (.runtimeError "Cannot convert expression object to boolean.") ∧
    ColumnRef_init false 1000 =
      .error (.recursionError "maximum recursion depth exceeded") :=
  ⟨rfl, rfl, rfl, rfl, TableRef_attr_loop_diverges 1000 .getattrStep⟩

/-- C6 (amended): when `Database.resolve_references` fails, the error
propagates and the database is left partially resolved: the table list
splits at the first failing table, every table before it remains fully
resolved (flag set), the failing and later tables keep their partial
state, and the database's own resolved flag is unchanged (still `False`
in the declare→resolve lifecycle). -/
theorem C6_resolve_failure_amended (db : DatabaseData) (e : PyErr)
    (h : (Database_resolve db).2 = some e) :
    (Database_resolve db).1.reference_resolved = db.reference_resolved ∧
    ∃ pre t post,
      db.tables = pre ++ t :: post ∧
      (∀ t' ∈ pre, (Table_resolve t').2 = none ∧
        ((Table_resolve t').1).reference_resolved = true) ∧
      (Table_resolve t).2 = some e ∧
      (Database_resolve db).1.tables =
        pre.map (fun t' => (Table_resolve t').1) ++ (Table_resolve t).1 :: post := by
  have hsnd : (Database_resolve db).2 = (dbResolveTables [] db.tables).2 := by
    rcases hd : dbResolveTables [] db.tables with ⟨ts, opt⟩
    cases opt <;> simp [Database_resolve, hd]
  have herr : (dbResolveTables [] db.tables).2 = some e := by rw [← hsnd]; exact h
  have hfst : (Database_resolve db).1.tables = (dbResolveTables [] db.tables).1 ∧
      (Database_resolve db).1.reference_resolved = db.reference_resolved := by
    rcases hd : dbResolveTables [] db.tables with ⟨ts, opt⟩
    cases opt with
    | none => rw [hd] at herr; simp at herr
    | some e2 => simp [Database_resolve, hd]
  obtain ⟨pre, t, post, hsplit, hpre, hterr, hres⟩ :=
    dbResolveTables_err e db.tables [] herr
  refine ⟨hfst.2, pre, t, post, hsplit, ?_, hterr, ?_⟩
  · exact fun t' ht' => ⟨(hpre t' ht'), Table_resolve_ok_flag t' (hpre t' ht')⟩
  · rw [hfst.1]
    simpa using hres

/-- C6 (witness): the amended theorem applied to the concrete failing
database `dbC6`. -/
theorem C6_resolve_failure_witness :
    (Database_resolve dbC6).2 =
      some (.runtimeError "Multiple link columns to the same table exist.") ∧
    ((Database_resolve dbC6).1.reference_resolved = dbC6.reference_resolved ∧
     ∃ pre t post,
      dbC6.tables = pre ++ t :: post ∧
      (∀ t' ∈ pre, (Table_resolve t').2 = none ∧
        ((Table_resolve t').1).reference_resolved = true) ∧
      (Table_resolve t).2 =
        some (.runtimeError "Multiple link columns to the same table exist.") ∧
      (Database_resolve dbC6).1.tables =
        pre.map (fun t' => (Table_resolve t').1) ++ (Table_resolve t).1 :: post) :=
  ⟨rfl, C6_resolve_failure_amended dbC6
    (.runtimeError "Multiple link columns to the same table exist.") rfl⟩

/-- C7 (counterexample): declaring a second table named `t1` on a database
that already has one does not fail: no error is raised, both tables are
kept in the ordered list, and the name lookup now returns the newer
table. -/
theorem C7_duplicate_name_counterexample :
    dbC7.2 = none ∧
    dbC7.1.tables.length = 2 ∧
    (Database_table dbC7.1 "t1").map (fun t => t.columns.map (fun c => c.name)) =
      .ok ["id2"] :=
  ⟨rfl, rfl, rfl⟩

/-- C7 (amended): declaring a table whose name is already used does not
fail (no duplicate check exists in `Database.append_table`); the new table
is appended to the ordered table list and replaces the previous one in the
by-name lookup. -/
theorem C7_duplicate_name_amended (db : DatabaseData) (name : String)
    (cols : List ColumnData)
    (_hdup : Database_table_exists db name = true)
    (hpk : (cols.filter (fun c => c.is_primary)).length = 1) :
    (Table_init db name cols).2 = none ∧
    (Table_init db name cols).1.tables = db.tables ++ [⟨name, cols, none, false⟩] ∧
    Database_table (Table_init db name cols).1 name = .ok ⟨name, cols, none, false⟩ := by
  refine ⟨?_, ?_, ?_⟩
  · simp [Table_init, hpk]
  · simp [Table_init, hpk]
  · simp [Table_init, hpk, Database_table, List.filter_append]

/-- C7 (witness): the amended theorem applied to the concrete database
`dbC7pre`, which already declares `t1`. -/
theorem C7_duplicate_name_witness :
    Database_table_exists dbC7pre "t1" = true ∧
    (([Column_init "id2" "INT" true false []].filter (fun c => c.is_primary)).length = 1) ∧
    ((Table_init dbC7pre "t1" [Column_init "id2" "INT" true false []]).2 = none ∧
     (Table_init dbC7pre "t1" [Column_init "id2" "INT" true false []]).1.tables =
       dbC7pre.tables ++ [⟨"t1", [Column_init "id2" "INT" true false []], none, false⟩] ∧
     Database_table (Table_init dbC7pre "t1" [Column_init "id2" "INT" true false []]).1 "t1" =
       .ok ⟨"t1", [Column_init "id2" "INT" true false []], none, false⟩) :=
  ⟨rfl, rfl, C7_duplicate_name_amended dbC7pre "t1"
    [Column_init "id2" "INT" true false []] rfl rfl⟩

/-- C8: the `quoted` branch of `Query._to_str` emits the opening double
quote and the backslash/quote escaping but never appends the closing
quote, so `Value("abc")` renders as `"abc` (not `"abc"`), and a temporal
value renders as `"<iso>` without a closing quote. -/
theorem C8_quoted_literal_code_bug :
    sqlTextF 9 (.Value (.str "abc")) = .ok "\"abc" ∧
    sqlTextF 9 (.Value (.str "a\"b\\c")) = .ok "\"a\\\"b\\\\c" ∧
    sqlTextF 9 (.Value (.temporal "2020-01-02T03:04:05")) =
      .ok "\"2020-01-02T03:04:05" ∧
    sqlTextF 9 (.Value (.str "abc")) ≠ .ok "\"abc\"" := by
  refine ⟨rfl, rfl, rfl, by decide⟩

/-- C9: coercing any expression object to a Python primitive — `bool`,
`int`, `float`, `str` or `hash` — raises `RuntimeError`, and the
membership syntax `x in e` always raises as well: `Expr.__contains__`
builds an `OpExpr('IN', …)` node, which the interpreter then coerces to a
truth value via `Expr.__bool__`. -/
theorem C9_coercions_always_raise (e x : ExprV) :
    Expr_bool e = .error (.runtimeError "Cannot convert expression object to boolean.") ∧
    Expr_int e = .error (.runtimeError "Cannot convert expression object to integer.") ∧
    Expr_float e = .error (.runtimeError "Cannot convert expression object to float.") ∧
    Expr_str e = .error (.runtimeError "Cannot convert expression object to string.") ∧
    Expr_hash e = .error (.runtimeError "Cannot calculate a hash value of expression object.") ∧
    Expr_contains e x = .OpExpr "IN" x e ∧
    Expr_in x e = .error (.runtimeError "Cannot convert expression object to boolean.") :=
  ⟨rfl, rfl, rfl, rfl, rfl, rfl, rfl⟩

/-- C10: aliasing is replacement, not nesting: whenever `t.alias(a)`
succeeds it produces `AliasedTable(base, a)` over the underlying table
`base` of `t`, re-aliasing it with `b` yields `AliasedTable(base, b)` —
the previous alias `a` is discarded — its rendered identifier form
(`__sql__`) mentions only `b`, and the entity table is unchanged. -/
theorem C10_alias_replacement (t : SchemaV) (a b : String) (u : SchemaV)
    (h : TableExpr_alias t a = .ok u) :
    ∃ base, u = .AliasedTable base a ∧
      TableExpr_alias u b = .ok (.AliasedTable base b) ∧
      sqlSchema (.AliasedTable base b) = .ok (.Query [.s b] asObjOpt) ∧
      entityTableName (.AliasedTable base b) = entityTableName t := by
  cases t with
  | Table tn =>
      obtain rfl : u = .AliasedTable (.Table tn) a := by
        injection h with h'
        exact h'.symm
      exact ⟨.Table tn, rfl, rfl, rfl, rfl⟩
  | LinkedTable tn l =>
      obtain rfl : u = .AliasedTable (.LinkedTable tn l) a := by
        injection h with h'
        exact h'.symm
      exact ⟨.LinkedTable tn l, rfl, rfl, rfl, rfl⟩
  | AliasedTable inner an =>
      cases inner with
      | Table tn =>
          obtain rfl : u = .AliasedTable (.Table tn) a := by
            injection h with h'
            exact h'.symm
          exact ⟨.Table tn, rfl, rfl, rfl, rfl⟩
      | LinkedTable tn l =>
          obtain rfl : u = .AliasedTable (.LinkedTable tn l) a := by
            injection h with h'
            exact h'.symm
          exact ⟨.LinkedTable tn l, rfl, rfl, rfl, rfl⟩
      | AliasedTable x y => exact Except.noConfusion h
      | Column x y => exact Except.noConfusion h
      | ColumnInLinkedTable x y z => exact Except.noConfusion h
      | ColumnInAliasedTable x y z => exact Except.noConfusion h
      | SchemaExprs vs => exact Except.noConfusion h
  | Column x y => exact Except.noConfusion h
  | ColumnInLinkedTable x y z => exact Except.noConfusion h
  | ColumnInAliasedTable x y z => exact Except.noConfusion h
  | SchemaExprs vs => exact Except.noConfusion h

/-- C10 (witness): the replacement behaviour at the concrete table
`items` with aliases `x` then `y`. -/
theorem C10_alias_replacement_witness :
    TableExpr_alias (.Table "items") "x" = .ok (.AliasedTable (.Table "items") "x") ∧
    ∃ base, SchemaV.AliasedTable (.Table "items") "x" = .AliasedTable base "x" ∧
      TableExpr_alias (.AliasedTable (.Table "items") "x") "y" =
        .ok (.AliasedTable base "y") ∧
      sqlSchema (.AliasedTable base "y") = .ok (.Query [.s "y"] asObjOpt) ∧
      entityTableName (.AliasedTable base "y") = entityTableName (.Table "items") :=
  ⟨rfl, C10_alias_replacement (.Table "items") "x" "y"
    (.AliasedTable (.Table "items") "x") rfl⟩

end Pytorm
